import Mathlib

/-!
Verification development for the promptune intent-detection cascade.

This file gives a shallow embedding, in Lean, of the parts of the repository
that the specified properties talk about:

* the shared intent-match value (`IntentMatch`);
* the selective arbitration trigger of the hook entry point
  (`shouldRunHaiku`, from src/hooks/user_prompt_submit.py line 777);
* the three-tier detection cascade `PromptuneDetector.detect`
  (`detectT`, instrumented with the list of tiers that were invoked and with
  explicit exception propagation, from src/hooks/user_prompt_submit.py
  lines 84-106);
* the hook's skip guard `should_process` and entry point `main`
  (`shouldProcess`, `mainRun`, from src/hooks/user_prompt_submit.py);
* the RapidFuzz keyword matcher `KeywordMatcherV2.match` with its
  help-with-action exclusion (`pyMatchV2`, `isHelpWithAction`, from
  src/lib/keyword_matcher_v2.py);
* the Model2Vec matcher's availability / lazy-load state machine
  (`m2vIsAvailable`, `m2vLoadModel`, `m2vMatch`, from
  src/lib/model2vec_matcher.py);
* the semantic-router matcher (`semMatch`, from
  src/lib/semantic_router_matcher.py);
* the telemetry store's percentile aggregation and correction-cost
  computation (`perfStats`, `correctionCost`, from
  src/lib/observability_db.py).

Machine floats of the source are modelled as rationals, timestamps and
measured latencies as opaque rational inputs, Python exceptions as
`Except String`, and Python `None` as `Option.none`.
-/

namespace Promptune

/-- Shared result value of every matcher tier: the `IntentMatch` dataclass of
keyword_matcher_v2.py / model2vec_matcher.py / semantic_router_matcher.py
(command, confidence, method string, latency, matched keyword/pattern list). -/
structure IntentMatch where
  command : String
  confidence : ℚ
  method : String
  latencyMs : ℚ
  matchedKeywords : List String
  deriving DecidableEq

/-- Selective arbitration trigger of the hook, user_prompt_submit.py line 777:
should_run_haiku = match.confidence < 0.95 or match.method in w
where w is the two-element list of the strings fuzzy and semantic. -/
def shouldRunHaiku (confidence : ℚ) (method : String) : Bool :=
  decide (confidence < mkRat 95 100) || (method == "fuzzy" || method == "semantic")

/-- The three matcher tiers of the cascade. -/
inductive Tier where
  | keyword
  | model2vec
  | semantic
  deriving DecidableEq

/-- Tier 3 step of `PromptuneDetector.detect` (user_prompt_submit.py
lines 99-106): if the semantic matcher is present, invoke it and return its
result; otherwise no match.  `trace` is the list of tiers already invoked. -/
def detectTier3 (sem : Option (String → Except String (Option IntentMatch)))
    (text : String) (trace : List Tier) :
    Except String (Option IntentMatch) × List Tier :=
  match sem with
  | none => (Except.ok none, trace)
  | some f =>
    match f text with
    | Except.error e => (Except.error e, trace ++ [Tier.semantic])
    | Except.ok r => (Except.ok r, trace ++ [Tier.semantic])

/-- `PromptuneDetector.detect` (user_prompt_submit.py lines 84-106),
instrumented with the list of tiers whose match method was invoked.  Each
tier is a function that may raise (`Except.error`); the source body contains
no try/except, so an exception is propagated by the monadic structure.
`m2v` and `sem` are `none` exactly when `_get_model2vec` / `_get_semantic`
return None (tier unavailable). -/
def detectT (kw : String → Except String (Option IntentMatch))
    (m2v sem : Option (String → Except String (Option IntentMatch)))
    (text : String) :
    Except String (Option IntentMatch) × List Tier :=
  match kw text with
  | Except.error e => (Except.error e, [Tier.keyword])
  | Except.ok (some r) => (Except.ok (some r), [Tier.keyword])
  | Except.ok none =>
    match m2v with
    | none => detectTier3 sem text [Tier.keyword]
    | some f =>
      match f text with
      | Except.error e => (Except.error e, [Tier.keyword, Tier.model2vec])
      | Except.ok (some r) => (Except.ok (some r), [Tier.keyword, Tier.model2vec])
      | Except.ok none => detectTier3 sem text [Tier.keyword, Tier.model2vec]

/-- Python str whitespace (ASCII): space, tab, newline, carriage return,
vertical tab, form feed. -/
def pyIsSpace (c : Char) : Bool :=
  c == ' ' || c == '\t' || c == '\n' || c == '\r' ||
    c == Char.ofNat 11 || c == Char.ofNat 12

/-- Python str.strip(): remove leading and trailing whitespace. -/
def pyStrip (cs : List Char) : List Char :=
  ((cs.dropWhile pyIsSpace).reverse.dropWhile pyIsSpace).reverse

/-- Python str.startswith(p): p is an initial segment of the string. -/
def pyStartsWith : List Char → List Char → Bool
  | [], _ => true
  | _ :: _, [] => false
  | p :: ps, c :: cs => p == c && pyStartsWith ps cs

/-- Accumulator pass for `pySplitWS`: `acc` is the current word, reversed. -/
def pySplitWSAux : List Char → List Char → List (List Char)
  | [], acc => if acc.isEmpty then [] else [acc.reverse]
  | c :: cs, acc =>
    if pyIsSpace c then
      if acc.isEmpty then pySplitWSAux cs [] else acc.reverse :: pySplitWSAux cs []
    else pySplitWSAux cs (c :: acc)

/-- Python str.split() with no argument: maximal runs of non-whitespace. -/
def pySplitWS (cs : List Char) : List (List Char) :=
  pySplitWSAux cs []

/-- Hook skip guard `should_process` (user_prompt_submit.py lines 239-256):
false for an empty or whitespace-only prompt, a prompt whose stripped text
starts with the explicit command marker, the internal Haiku analysis prompt
prefix, or a prompt of fewer than 3 whitespace-separated words. -/
def shouldProcess (prompt : String) : Bool :=
  let cs := prompt.data
  if cs.isEmpty || (pyStrip cs).isEmpty then false
  else if pyStartsWith ['/'] (pyStrip cs) then false
  else if pyStartsWith ("You are a prompt enhancement assistant".data) cs then false
  else if (pySplitWS (pyStrip cs)).length < 3 then false
  else true

/-- Python regex word character (ASCII): letters, digits, underscore. -/
def pyIsWordChar (c : Char) : Bool :=
  c.isAlpha || c.isDigit || c == '_'

/-- Consume a literal character sequence; return the remaining input. -/
def chompLit : List Char → List Char → Option (List Char)
  | [], cs => some cs
  | _ :: _, [] => none
  | l :: ls, c :: cs => if l == c then chompLit ls cs else none

/-- Consume one or more whitespace characters (regex backslash-s-plus,
greedily; equivalent to the regex because every continuation in the three
exclusion patterns starts with a word character). -/
def chompSpaces1 : List Char → Option (List Char)
  | [] => none
  | c :: cs => if pyIsSpace c then some (cs.dropWhile pyIsSpace) else none

/-- Consume one or more word characters (regex backslash-w-plus, greedily;
equivalent to the regex because the continuation starts with whitespace). -/
def chompWord1 : List Char → Option (List Char)
  | [] => none
  | c :: cs => if pyIsWordChar c then some (cs.dropWhile pyIsWordChar) else none

/-- Word boundary after a word character: end of input or a non-word char. -/
def atWordBoundary : List Char → Bool
  | [] => true
  | c :: _ => !pyIsWordChar c

/-- First exclusion pattern of `KeywordMatcherV2._is_help_with_action`
(keyword_matcher_v2.py line 163): the word help, whitespace, then one of
me / us / you / them at a word boundary, matched at the current position. -/
def helpPronounHere (cs : List Char) : Bool :=
  match chompLit "help".data cs with
  | none => false
  | some r1 =>
    match chompSpaces1 r1 with
    | none => false
    | some r2 =>
      ["me", "us", "you", "them"].any fun w =>
        match chompLit w.data r2 with
        | none => false
        | some r3 => atWordBoundary r3

/-- Second exclusion pattern (keyword_matcher_v2.py line 164): one of
can / could / would / will, whitespace, you, whitespace, help, at a word
boundary, matched at the current position. -/
def canYouHelpHere (cs : List Char) : Bool :=
  ["can", "could", "would", "will"].any fun w =>
    match chompLit w.data cs with
    | none => false
    | some r1 =>
      match chompSpaces1 r1 with
      | none => false
      | some r2 =>
        match chompLit "you".data r2 with
        | none => false
        | some r3 =>
          match chompSpaces1 r3 with
          | none => false
          | some r4 =>
            match chompLit "help".data r4 with
            | none => false
            | some r5 => atWordBoundary r5

/-- Third exclusion pattern (keyword_matcher_v2.py line 165): help,
whitespace, a word, whitespace, then one of with / to / for at a word
boundary, matched at the current position. -/
def helpWordPrepHere (cs : List Char) : Bool :=
  match chompLit "help".data cs with
  | none => false
  | some r1 =>
    match chompSpaces1 r1 with
    | none => false
    | some r2 =>
      match chompWord1 r2 with
      | none => false
      | some r3 =>
        match chompSpaces1 r3 with
        | none => false
        | some r4 =>
          ["with", "to", "for"].any fun w =>
            match chompLit w.data r4 with
            | none => false
            | some r5 => atWordBoundary r5

/-- Word boundary before a pattern that starts with a word character:
start of input or a preceding non-word character. -/
def prevBoundary : Option Char → Bool
  | none => true
  | some p => !pyIsWordChar p

/-- re.search of a pattern over the text: try every position, requiring the
leading word boundary (each of the three exclusion patterns begins with a
word character, so the boundary holds iff the previous char is not a word
character). -/
def scanPattern (patHere : List Char → Bool) : Option Char → List Char → Bool
  | _, [] => false
  | prev, c :: cs =>
    (prevBoundary prev && patHere (c :: cs)) || scanPattern patHere (some c) cs

/-- `KeywordMatcherV2._is_help_with_action` (keyword_matcher_v2.py lines
154-172): lowercase the text and search for any of the three
help-with-action regex patterns. -/
def isHelpWithAction (text : String) : Bool :=
  let lower := text.data.map Char.toLower
  scanPattern helpPronounHere none lower ||
    scanPattern canYouHelpHere none lower ||
      scanPattern helpWordPrepHere none lower

/-- Running best-match accumulator of `KeywordMatcherV2.match`:
best_match, best_score and matched_keywords (keyword_matcher_v2.py
lines 195-197). -/
structure BestAcc where
  bestMatch : Option String
  bestScore : ℚ
  matchedKeywords : List String
  deriving DecidableEq

/-- One iteration of the inner keyword loop of `KeywordMatcherV2.match`
(keyword_matcher_v2.py lines 201-214): score the keyword by the fuzzy
similarity `fScore` (rapidfuzz partial_ratio / 100, applied to the
lowercased keyword and the processed text), skip the candidate when the
command is /ctx:help and the text is a help-with-action phrase, and keep a
strictly better score. -/
def scanStep (fScore : String → String → ℚ) (t command : String)
    (acc : BestAcc) (kw : String) : BestAcc :=
  let s := fScore (String.mk (kw.data.map Char.toLower)) t
  if command == "/ctx:help" && isHelpWithAction t then acc
  else if s > acc.bestScore then ⟨some command, s, [kw]⟩
  else acc

/-- Inner keyword loop of `KeywordMatcherV2.match` (keyword_matcher_v2.py
lines 200-214) for one command. -/
def scanKeywords (fScore : String → String → ℚ) (t : String) (command : String)
    (keywords : List String) (acc : BestAcc) : BestAcc :=
  keywords.foldl (scanStep fScore t command) acc

/-- `KeywordMatcherV2.match` (keyword_matcher_v2.py lines 174-228),
parameterised by the keyword index (the command-to-keywords mapping loaded
by load_keywords) and by the rapidfuzz similarity function `fScore`.
Returns an IntentMatch with the fixed method string fuzzy when the best
score reaches the 0.70 threshold.  The measured latency is modelled as 0. -/
def pyMatchV2 (index : List (String × List String))
    (fScore : String → String → ℚ) (text : String) : Option IntentMatch :=
  if text.data.isEmpty || (pyStrip text.data).isEmpty then none
  else
    let t := String.mk ((pyStrip text.data).map Char.toLower)
    let final :=
      index.foldl (fun acc p => scanKeywords fScore t p.1 p.2 acc) ⟨none, 0, []⟩
    match final.bestMatch with
    | none => none
    | some cmd =>
      if !cmd.isEmpty && final.bestScore ≥ mkRat 7 10 then
        some ⟨cmd, final.bestScore, "fuzzy", 0, final.matchedKeywords⟩
      else none

/-- Modelled from the spec: the keyword vocabulary is loaded at runtime from
the repository markdown frontmatter / generated intent_mappings.json, which
are not part of the source tree under verification.  Per the spec, the
documentation/help intent /ctx:help carries the generic keyword help, and
the remaining intents carry their obvious action keywords (the minimal
built-in fallback of keyword_matcher_v2.py lines 76-79 extended with the
help intent of the exclusion scenario). -/
def ctxKeywordIndex : List (String × List String) :=
  [("/ctx:design", ["design", "architect", "architecture"]),
   ("/ctx:research", ["research", "investigate"]),
   ("/ctx:help", ["help"])]

/-- Python substring containment (the in operator on str). -/
def pyIsSubstring : List Char → List Char → Bool
  | needle, [] => needle.isEmpty
  | needle, c :: cs => pyStartsWith needle (c :: cs) || pyIsSubstring needle cs

/-- Modelled from the spec: rapidfuzz fuzz.partial_ratio divided by 100,
described by the spec as case-insensitive substring or fuzzy-partial match
with similarity in the unit interval; a keyword contained in the text
scores 1 (an exact window match), and non-substring similarity is modelled
as 0. -/
def specFuzzScore (kw text : String) : ℚ :=
  if pyIsSubstring kw.data text.data then 1 else 0

/-- Mutable per-instance state of `Model2VecMatcher`
(model2vec_matcher.py lines 130-133): whether self._model is set, and the
_model_load_attempted flag.  The model object itself (with its precomputed
intent embeddings) is abstracted to its presence. -/
structure M2VState where
  modelLoaded : Bool
  loadAttempted : Bool
  deriving DecidableEq

/-- Process environment of the Model2Vec matcher: whether the model2vec
dependency imports, whether StaticModel.from_pretrained succeeds, and the
result of the loaded-model matching pipeline (encode, cosine scan against
the intent-pattern bank, 0.5 threshold) abstracted as a function of the
query text. -/
structure M2VEnv where
  importOk : Bool
  loadOk : Bool
  matchLoaded : String → Option IntentMatch

/-- `Model2VecMatcher.is_available` (model2vec_matcher.py lines 135-146):
try import model2vec; return True on success, False on ImportError.  Note
that it does not consult the load state at all. -/
def m2vIsAvailable (env : M2VEnv) (_s : M2VState) : Bool :=
  env.importOk

/-- `Model2VecMatcher._load_model` (model2vec_matcher.py lines 148-174):
returns (success, new state, whether a load was actually attempted by this
call).  A set model short-circuits to true; a previously attempted load
short-circuits to false without retrying; otherwise the flag is set and
the import plus from_pretrained either succeed (model stored) or fail. -/
def m2vLoadModel (env : M2VEnv) (s : M2VState) : Bool × M2VState × Bool :=
  if s.modelLoaded then (true, s, false)
  else if s.loadAttempted then (false, s, false)
  else if env.importOk && env.loadOk then (true, ⟨true, true⟩, true)
  else (false, ⟨false, true⟩, true)

/-- `Model2VecMatcher.match` (model2vec_matcher.py lines 212-265): ensure
the model is loaded (returning None on failure), return None for empty or
whitespace-only text, otherwise run the loaded-model pipeline.  The third
component reports whether this call attempted a model load. -/
def m2vMatch (env : M2VEnv) (s : M2VState) (text : String) :
    Option IntentMatch × M2VState × Bool :=
  match m2vLoadModel env s with
  | (ok, s1, att) =>
    if !ok then (none, s1, att)
    else if text.data.isEmpty || (pyStrip text.data).isEmpty then (none, s1, att)
    else (env.matchLoaded text, s1, att)

/-- RouteChoice returned by the semantic-router backend: optional route name
and optional similarity score (semantic_router_matcher.py lines 242-260). -/
structure RouteChoice where
  name : Option String
  similarityScore : Option ℚ
  deriving DecidableEq

/-- Python truthiness of an optional float: None and 0.0 are falsy. -/
def pyTruthy : Option ℚ → Bool
  | none => false
  | some q => q != 0

/-- Confidence substitution of `SemanticRouterMatcher.match`
(semantic_router_matcher.py line 260): the similarity score if truthy,
otherwise the fixed default 0.85. -/
def semConfidence (score : Option ℚ) : ℚ :=
  if pyTruthy score then score.getD 0 else mkRat 85 100

/-- Static route table of `SemanticRouterMatcher._define_routes`
(semantic_router_matcher.py lines 51-160): route name and example
utterances. -/
def scRoutes : List (String × List String) :=
  [("/sc:analyze",
    ["analyze this code", "review the code quality", "check for code issues",
     "what are the problems with this code", "audit this codebase",
     "assess code quality", "inspect the architecture",
     "evaluate the code structure", "find security vulnerabilities",
     "check for performance issues", "review this implementation",
     "what\x27s wrong with this code"]),
   ("/sc:test",
    ["run the tests", "execute test suite", "check test coverage",
     "run unit tests", "test this code", "verify with tests",
     "check if tests pass", "measure code coverage", "run integration tests",
     "execute all tests", "validate with test cases", "generate test report"]),
   ("/sc:troubleshoot",
    ["fix this bug", "debug this issue", "why isn\x27t this working",
     "solve this problem", "troubleshoot the error", "diagnose this issue",
     "find the bug", "repair this code", "resolve this error",
     "figure out what\x27s broken", "investigate this failure",
     "why is this failing"]),
   ("/sc:implement",
    ["build a new feature", "implement this functionality",
     "create a new component", "develop this feature", "add this capability",
     "build this from scratch", "implement the requirements",
     "develop this module", "create this feature", "build the functionality",
     "add this feature", "write the implementation"]),
   ("/sc:explain",
    ["explain this code", "what does this do", "help me understand this",
     "document this code", "describe how this works",
     "clarify this implementation", "break down this code",
     "walk me through this", "explain the logic", "what\x27s happening here",
     "help me understand the flow", "describe the architecture"]),
   ("/sc:improve",
    ["optimize this code", "refactor this implementation",
     "improve performance", "make this code better", "enhance this code",
     "clean up this code", "improve code quality", "optimize for speed",
     "refactor for maintainability", "enhance the performance",
     "make this more efficient", "improve the design"])]

/-- `SemanticRouterMatcher.match` (semantic_router_matcher.py lines
219-272): None when the router cannot be built; the try block converts any
routing exception to None; a missing route choice or missing route name
yields None; otherwise the matched route is looked up in the route table,
its first three utterances become the matched patterns, the confidence is
the truthy similarity score or the 0.85 default, and the method string is
semantic_router.  The measured latency is modelled as 0. -/
def semMatch (routes : List (String × List String)) (builderOk : Bool)
    (routerResult : Except String (Option RouteChoice)) : Option IntentMatch :=
  if !builderOk then none
  else
    match routerResult with
    | Except.error _ => none
    | Except.ok none => none
    | Except.ok (some rc) =>
      match rc.name with
      | none => none
      | some routeName =>
        let matchedRoute := routes.find? fun r => r.1 == routeName
        let patterns :=
          match matchedRoute with
          | some r => r.2.take 3
          | none => []
        some ⟨routeName, semConfidence rc.similarityScore, "semantic_router",
          0, patterns⟩

/-- Per-component percentile snapshot of `ObservabilityDB.get_stats`
(observability_db.py lines 488-495). -/
structure PerfStats where
  p50 : ℚ
  p95 : ℚ
  p99 : ℚ
  count : ℕ
  deriving DecidableEq

/-- Percentile rank index of get_stats: int(n * p / 100), exact in rational
arithmetic (the source computes int(n * 0.5), int(n * 0.95), int(n * 0.99)
in machine floats; 0.5 is exact and for row counts the float products of
0.95 and 0.99 truncate to the same integers as the exact rationals). -/
def pctIdx (n p : ℕ) : ℕ :=
  n * p / 100

/-- Percentile aggregation of `ObservabilityDB.get_stats` for one
component (observability_db.py lines 475-495): the latency samples are
sorted ascending (ORDER BY latency_ms) and indexed at the p50 / p95 / p99
ranks; None when the sample list is empty. -/
def perfStats (latencies : List ℚ) : Option PerfStats :=
  let sorted := List.insertionSort (· ≤ ·) latencies
  if sorted.isEmpty then none
  else
    let n := sorted.length
    some ⟨sorted.getD (pctIdx n 50) 0, sorted.getD (pctIdx n 95) 0,
      sorted.getD (pctIdx n 99) 0, n⟩

/-- Cost derivation of `ObservabilityDB.log_correction`
(observability_db.py lines 412-417): input tokens at 0.25 USD per million,
output tokens at 1.25 USD per million. -/
def correctionCost (promptTokens completionTokens : ℕ) : ℚ :=
  promptTokens * mkRat 25 100 / 1000000 + completionTokens * mkRat 125 100 / 1000000

/-- Row of the model_corrections table written by log_correction
(observability_db.py lines 422-447); the timestamp is supplied by the
clock. -/
structure CorrectionRow where
  originalCommand : String
  correctedCommand : String
  originalConfidence : ℚ
  correctionAccepted : Bool
  modelName : String
  reasoning : String
  promptTokens : ℕ
  completionTokens : ℕ
  totalCostUsd : ℚ
  latencyMs : ℚ
  timestamp : ℚ
  sessionId : String
  promptPreview : String
  deriving DecidableEq

/-- `ObservabilityDB.log_correction` (observability_db.py lines 368-447):
the inserted row, with total_cost_usd derived by `correctionCost` at write
time and the prompt preview truncated to 100 characters. -/
def logCorrection (originalCommand correctedCommand : String)
    (originalConfidence : ℚ) (correctionAccepted : Bool)
    (modelName reasoning : String) (promptTokens completionTokens : ℕ)
    (latencyMs : ℚ) (sessionId promptPreview : String) (timestamp : ℚ) :
    CorrectionRow :=
  ⟨originalCommand, correctedCommand, originalConfidence, correctionAccepted,
    modelName, reasoning, promptTokens, completionTokens,
    correctionCost promptTokens completionTokens, latencyMs, timestamp,
    sessionId, String.mk (promptPreview.data.take 100)⟩

/-- Hook event decoded from stdin (user_prompt_submit.py lines 642-645):
the prompt and session_id fields, each possibly absent. -/
structure PyEvent where
  prompt : Option String
  sessionId : Option String

/-- JSON response object the hook prints to stdout: the continue flag, the
suppressOutput flag, and the optional additionalContext text. -/
structure HookResponse where
  continueFlag : Bool
  suppressOutput : Bool
  additionalContext : Option String
  deriving DecidableEq

/-- Pass-through response of main (user_prompt_submit.py lines 656 and
752): continue true, suppressOutput true. -/
def passThroughResponse : HookResponse :=
  ⟨true, true, none⟩

/-- Top-level exception handler response of main (user_prompt_submit.py
line 917): continue true, suppressOutput true. -/
def fallbackResponse : HookResponse :=
  ⟨true, true, none⟩

/-- Process environment of one `main` invocation: the outcome of every
effectful or out-of-scope step the entry point consults.  Steps whose
source is wrapped in its own try/except (telemetry writes, detection
counters, the Haiku analysis call) are total; steps that can raise
(reading/parsing stdin, each tier's match call, the claude CLI probe) are
`Except`.  Pure string formatting is abstracted to the produced text. -/
structure HookEnv where
  stdin : Except String PyEvent
  gitWorkflow : Bool × Option String
  skillInvocation : Bool × String
  correctSkill : Option String × ℚ
  kwF : String → Except String (Option IntentMatch)
  m2vF : Option (String → Except String (Option IntentMatch))
  semF : Option (String → Except String (Option IntentMatch))
  engineerAvailable : Except String Bool
  haikuAnalysisReturned : Bool
  gitFeedbackMsg : String
  skillCorrectionMsg : String
  interactiveMsg : String

/-- Hook entry point `main` (user_prompt_submit.py lines 637-918),
instrumented with the list of matcher tiers invoked.  The whole body runs
under one try/except whose handler prints `fallbackResponse`; each branch
of the body prints exactly one response and returns.  The branches, in
source order: skip guard, git-workflow feedback, skill-name correction,
no-match / low-confidence pass-through, and the detection suggestion (with
selective Haiku arbitration gated by `shouldRunHaiku` and the claude CLI
probe). -/
def mainRun (env : HookEnv) : HookResponse × List Tier :=
  match env.stdin with
  | Except.error _ => (fallbackResponse, [])
  | Except.ok event =>
    let prompt := event.prompt.getD ""
    if !shouldProcess prompt then (passThroughResponse, [])
    else
      match env.gitWorkflow with
      | (isGit, gitCmd) =>
        if isGit && gitCmd.isSome then
          (⟨true, false, some env.gitFeedbackMsg⟩, [])
        else
          let skillRedirect :=
            match env.skillInvocation with
            | (false, _) => false
            | (true, attempted) =>
              match env.correctSkill with
              | (none, _) => false
              | (some correct, conf) => conf > 70 && attempted != correct
          if skillRedirect then (⟨true, false, some env.skillCorrectionMsg⟩, [])
          else
            match detectT env.kwF env.m2vF env.semF prompt with
            | (Except.error _, trace) => (fallbackResponse, trace)
            | (Except.ok m, trace) =>
              match m with
              | none => (passThroughResponse, trace)
              | some mt =>
                if mt.confidence < mkRat 7 10 then (passThroughResponse, trace)
                else
                  let srh := shouldRunHaiku mt.confidence mt.method
                  match (if srh then env.engineerAvailable else Except.ok false) with
                  | Except.error _ => (fallbackResponse, trace)
                  | Except.ok avail =>
                    let _haiku := srh && avail && env.haikuAnalysisReturned
                    (⟨true, false, some env.interactiveMsg⟩, trace)

/-- Model2Vec environment in which the dependency imports but the model
artifact fails to load (model2vec_matcher.py lines 163-174 except path). -/
def m2vFailEnv : M2VEnv :=
  ⟨true, false, fun _ => none⟩

/-- Hook environment for a run whose Tier 1 match call raises: stdin
carries a processable prompt, no git-workflow or skill-invocation redirect,
and the keyword matcher raises. -/
def envTierBoom : HookEnv :=
  ⟨Except.ok ⟨some "analyze this code", none⟩, (false, none), (false, ""),
    (none, 0), fun _ => Except.error "boom", none, none, Except.ok false,
    false, "", "", ""⟩

/-- Hook environment for a run whose prompt is the two-character word hi
(fewer than 3 words), with every other step benign. -/
def envShortPrompt : HookEnv :=
  ⟨Except.ok ⟨some "hi", none⟩, (false, none), (false, ""), (none, 0),
    fun _ => Except.ok none, none, none, Except.ok false, false, "", "", ""⟩

theorem semConfidence_ne_zero (score : Option ℚ) : semConfidence score ≠ 0 := by
  rcases score with _ | q
  · decide
  · by_cases hq : q = 0
    · subst hq; decide
    · simp [semConfidence, pyTruthy, hq]

theorem pyMatchV2_method (index : List (String × List String))
    (fScore : String → String → ℚ) (text : String) (m : IntentMatch)
    (h : pyMatchV2 index fScore text = some m) : m.method = "fuzzy" := by
  unfold pyMatchV2 at h
  split at h
  · exact absurd h (by simp)
  · dsimp only at h
    split at h
    · exact absurd h (by simp)
    · split at h
      · cases Option.some.inj h; rfl
      · exact absurd h (by simp)

/-- C2: if the Tier 1 keyword matcher returns a match, the cascade's detect
returns exactly that match (the whole record: command, confidence, method,
latency) and never invokes the Tier 2 or Tier 3 matcher. -/
theorem tier1_shortCircuit (kw : String → Except String (Option IntentMatch))
    (m2v sem : Option (String → Except String (Option IntentMatch)))
    (text : String) (r : IntentMatch) (h : kw text = Except.ok (some r)) :
    detectT kw m2v sem text = (Except.ok (some r), [Tier.keyword]) ∧
    Tier.model2vec ∉ (detectT kw m2v sem text).2 ∧
    Tier.semantic ∉ (detectT kw m2v sem text).2 := by
  have h1 : detectT kw m2v sem text = (Except.ok (some r), [Tier.keyword]) := by
    unfold detectT
    rw [h]
  refine ⟨h1, ?_, ?_⟩ <;> rw [h1] <;> simp

/-- Closed instance of `tier1_shortCircuit` at a concrete Tier 1 result. -/
theorem tier1_shortCircuit_witness :
    detectT (fun _ => Except.ok (some ⟨"/ctx:design", 1, "fuzzy", 0, ["design"]⟩))
        none none "design a caching system" =
      (Except.ok (some ⟨"/ctx:design", 1, "fuzzy", 0, ["design"]⟩), [Tier.keyword]) :=
  (tier1_shortCircuit _ none none _ _ rfl).1

/-- C3, counterexample: `PromptuneDetector.detect` contains no per-tier
try/except, so an exception raised by the Tier 1 match call propagates out
of detect (the run's outcome is the error) and no further tier is tried —
refuting the claim that the exception is caught inside detect and the
cascade proceeds to the next tier. -/
theorem tierException_propagates_cex :
    detectT (fun _ => Except.error "boom") none none "analyze this code" =
      (Except.error "boom", [Tier.keyword]) := rfl

/-- C3, amended: an exception from a tier's match call propagates out of
the cascade's detect (no further tier is invoked) and is caught only by the
hook entry point's top-level handler, which emits the continue-true
fallback response. -/
theorem tierException_caught_at_main (env : HookEnv) (event : PyEvent) (e : String)
    (h1 : env.stdin = Except.ok event)
    (h2 : shouldProcess (event.prompt.getD "") = true)
    (h3 : env.gitWorkflow.1 = false)
    (h4 : env.skillInvocation.1 = false)
    (h5 : env.kwF (event.prompt.getD "") = Except.error e) :
    detectT env.kwF env.m2vF env.semF (event.prompt.getD "") =
      (Except.error e, [Tier.keyword]) ∧
    mainRun env = (fallbackResponse, [Tier.keyword]) ∧
    fallbackResponse.continueFlag = true := by
  have hd : detectT env.kwF env.m2vF env.semF (event.prompt.getD "") =
      (Except.error e, [Tier.keyword]) := by
    unfold detectT
    rw [h5]
  refine ⟨hd, ?_, rfl⟩
  unfold mainRun
  rw [h1]
  simp only [h2, Bool.not_true, Bool.false_eq_true, if_false]
  rw [h3]
  simp only [Bool.false_and, Bool.false_eq_true, if_false]
  have hsk : env.skillInvocation = (false, env.skillInvocation.2) := by
    rw [← h4]
  rw [hsk]
  simp only [Bool.false_eq_true, if_false]
  rw [hd]

/-- Closed instance of `tierException_caught_at_main`. -/
theorem tierException_caught_at_main_witness :
    mainRun envTierBoom = (fallbackResponse, [Tier.keyword]) :=
  (tierException_caught_at_main envTierBoom ⟨some "analyze this code", none⟩
    "boom" rfl (by decide) rfl rfl rfl).2.1

/-- C4, counterexample: with the model2vec dependency importable but the
model artifact unreachable, the first match call attempts the load, fails,
and memoizes the failure — yet is_available still returns true afterwards,
because it only re-checks the import and never consults the load state.
This refutes the claim that is_available() returns false after the first
failed load. -/
theorem m2v_isAvailable_after_failed_load_cex :
    m2vMatch m2vFailEnv ⟨false, false⟩ "analyze this code" =
      (none, ⟨false, true⟩, true) ∧
    m2vIsAvailable m2vFailEnv ⟨false, true⟩ = true := by
  constructor <;> rfl

/-- C4, amended: after the first failed load attempt, _load_model returns
false on every subsequent call without re-attempting the load, every
subsequent match call returns none without re-attempting the load, and
is_available is unaffected by the failure — it reports exactly whether the
model2vec dependency imports, so it can stay true for the remainder of the
process. -/
theorem m2v_failure_memoization (env : M2VEnv) (s : M2VState) (text : String)
    (h1 : s.modelLoaded = false) (h2 : s.loadAttempted = true) :
    m2vLoadModel env s = (false, s, false) ∧
    m2vMatch env s text = (none, s, false) ∧
    m2vIsAvailable env s = env.importOk := by
  obtain ⟨ml, la⟩ := s
  cases h1
  cases h2
  refine ⟨rfl, ?_, rfl⟩
  unfold m2vMatch
  rfl

/-- Closed instance of `m2v_failure_memoization` at the post-failure state. -/
theorem m2v_failure_memoization_witness :
    m2vMatch m2vFailEnv ⟨false, true⟩ "analyze this code" =
      (none, ⟨false, true⟩, false) :=
  (m2v_failure_memoization m2vFailEnv ⟨false, true⟩ "analyze this code" rfl rfl).2.1

/-- C1, counterexample: the Tier 3 semantic matcher labels every match with
the method string semantic_router, and should_run_haiku tests membership in
the list containing only fuzzy and semantic — so a confidence-0.96 semantic
match is NOT escalated to the arbiter, refuting the claim that it is. -/
theorem semantic096_not_escalated_cex :
    semMatch scRoutes true
        (Except.ok (some ⟨some "/sc:analyze", some (mkRat 96 100)⟩)) =
      some ⟨"/sc:analyze", mkRat 96 100, "semantic_router", 0,
        ["analyze this code", "review the code quality", "check for code issues"]⟩ ∧
    shouldRunHaiku (mkRat 96 100) "semantic_router" = false := by
  constructor <;> decide

/-- C1, amended: escalation is the pure function
should_run_haiku(confidence, method) = confidence below 0.95 or method in
the two-string list fuzzy / semantic.  Since Tier 1 labels every one of its
matches fuzzy, every keyword-tier match is escalated regardless of
confidence (including 0.96); a confidence-0.96 Tier 2 (model2vec) or Tier 3
(semantic_router) match is not escalated; and a confidence-0.80 match of
any method is escalated. -/
theorem shouldRunHaiku_characterization (index : List (String × List String))
    (fScore : String → String → ℚ) (text : String) (m : IntentMatch)
    (h : pyMatchV2 index fScore text = some m) :
    (∀ c me, shouldRunHaiku c me = true ↔
      (c < mkRat 95 100 ∨ me = "fuzzy" ∨ me = "semantic")) ∧
    m.method = "fuzzy" ∧
    shouldRunHaiku m.confidence m.method = true ∧
    shouldRunHaiku (mkRat 96 100) "fuzzy" = true ∧
    shouldRunHaiku (mkRat 96 100) "model2vec" = false ∧
    shouldRunHaiku (mkRat 96 100) "semantic_router" = false ∧
    shouldRunHaiku (mkRat 8 10) "fuzzy" = true := by
  have hm : m.method = "fuzzy" := pyMatchV2_method index fScore text m h
  refine ⟨?_, hm, ?_, by decide, by decide, by decide, by decide⟩
  · intro c me
    simp [shouldRunHaiku, or_assoc]
  · rw [hm]
    simp [shouldRunHaiku]

/-- Closed instance of `shouldRunHaiku_characterization` at a concrete
Tier 1 match. -/
theorem shouldRunHaiku_characterization_witness :
    shouldRunHaiku (1 : ℚ) "fuzzy" = true :=
  (shouldRunHaiku_characterization ctxKeywordIndex specFuzzScore "show help"
    ⟨"/ctx:help", 1, "fuzzy", 0, ["help"]⟩ (by decide)).2.2.1

/-- C9: the cost stored by log_correction is a pure function of the token
counts at the fixed rates (0.25 / 1.25 USD per million input / output
tokens); with prompt_tokens 1000 and completion_tokens 500 it is exactly
875 / 1000000 = 0.000875 USD, independently of all other arguments. -/
theorem correction_cost_deterministic :
    correctionCost 1000 500 = mkRat 875 1000000 ∧
    (∀ oc cc conf acc mn rs lat sid pp ts,
      (logCorrection oc cc conf acc mn rs 1000 500 lat sid pp ts).totalCostUsd =
        mkRat 875 1000000) ∧
    (∀ oc cc conf acc mn rs pt ct lat sid pp ts,
      (logCorrection oc cc conf acc mn rs pt ct lat sid pp ts).totalCostUsd =
        correctionCost pt ct) := by
  have hc : correctionCost 1000 500 = mkRat 875 1000000 := by
    norm_num [correctionCost, Rat.mkRat_eq_div]
  exact ⟨hc, fun _ _ _ _ _ _ _ _ _ _ => hc, fun _ _ _ _ _ _ _ _ _ _ _ _ => rfl⟩

/-- C10: the semantic router substitutes the fixed default confidence 0.85
whenever the returned similarity score is Python-falsy — for None and
equally for an exact 0.0 score — so every IntentMatch returned by
SemanticRouterMatcher.match has a non-zero confidence. -/
theorem semRouter_default_confidence (routes : List (String × List String))
    (b : Bool) (rr : Except String (Option RouteChoice)) (m : IntentMatch)
    (h : semMatch routes b rr = some m) :
    m.confidence ≠ 0 ∧
    semConfidence (some 0) = mkRat 85 100 ∧
    semConfidence none = mkRat 85 100 ∧
    semMatch scRoutes true (Except.ok (some ⟨some "/sc:test", some 0⟩)) =
      some ⟨"/sc:test", mkRat 85 100, "semantic_router", 0,
        ["run the tests", "execute test suite", "check test coverage"]⟩ := by
  refine ⟨?_, by decide, by decide, by decide⟩
  unfold semMatch at h
  split at h
  · exact absurd h (by simp)
  · split at h
    · exact absurd h (by simp)
    · exact absurd h (by simp)
    · split at h
      · exact absurd h (by simp)
      · cases Option.some.inj h
        exact semConfidence_ne_zero _

/-- Closed instance of `semRouter_default_confidence` at a zero similarity
score. -/
theorem semRouter_default_confidence_witness :
    (⟨"/sc:test", mkRat 85 100, "semantic_router", 0,
      ["run the tests", "execute test suite", "check test coverage"]⟩ :
        IntentMatch).confidence ≠ 0 :=
  (semRouter_default_confidence scRoutes true
    (Except.ok (some ⟨some "/sc:test", some 0⟩)) _ (by decide)).1

/-- C5: for every stdin input and every outcome of the internal steps —
unparseable JSON, a missing prompt field, a tier or CLI-probe exception —
the hook entry point produces exactly one response object (mainRun is a
total function into a single response) and its continue field is true; no
exception propagates to the host. -/
theorem main_total_continue_true (env : HookEnv) :
    (mainRun env).1.continueFlag = true := by
  unfold mainRun
  repeat' first | rfl | split | dsimp only

theorem shouldProcess_false_of_skip (prompt : String)
    (h : pyStrip prompt.data = [] ∨
      (pySplitWS (pyStrip prompt.data)).length < 3 ∨
      pyStartsWith ['/'] (pyStrip prompt.data) = true) :
    shouldProcess prompt = false := by
  unfold shouldProcess
  dsimp only
  split_ifs with a b c d
  any_goals rfl
  exfalso
  rcases h with h | h | h
  · exact a (by simp [h])
  · exact d h
  · exact b h

/-- C6: for every prompt that is empty or whitespace-only, has fewer than 3
whitespace-separated words, or whose stripped text starts with the explicit
command marker, should_process returns false, the hook responds with the
pass-through continuation object, and no matcher tier is invoked. -/
theorem skipGuard_passThrough (env : HookEnv) (event : PyEvent) (prompt : String)
    (h1 : env.stdin = Except.ok event) (h2 : event.prompt.getD "" = prompt)
    (h3 : pyStrip prompt.data = [] ∨
      (pySplitWS (pyStrip prompt.data)).length < 3 ∨
      pyStartsWith ['/'] (pyStrip prompt.data) = true) :
    shouldProcess prompt = false ∧ mainRun env = (passThroughResponse, []) := by
  have hsp : shouldProcess prompt = false := shouldProcess_false_of_skip prompt h3
  refine ⟨hsp, ?_⟩
  unfold mainRun
  rw [h1]
  simp [h2, hsp]

/-- Closed instance of `skipGuard_passThrough` at the one-word prompt hi. -/
theorem skipGuard_passThrough_witness :
    mainRun envShortPrompt = (passThroughResponse, []) :=
  (skipGuard_passThrough envShortPrompt ⟨some "hi", none⟩ "hi" rfl rfl
    (Or.inr (Or.inl (by decide)))).2

theorem scanStep_veto (fScore : String → String → ℚ) (t command kw : String)
    (acc : BestAcc) (ht : isHelpWithAction t = true)
    (hacc : acc.bestMatch ≠ some "/ctx:help") :
    (scanStep fScore t command acc kw).bestMatch ≠ some "/ctx:help" := by
  unfold scanStep
  by_cases hc : (command == "/ctx:help") = true
  · simp only [hc, ht, Bool.and_self, if_true]
    exact hacc
  · have hne : command ≠ "/ctx:help" := by simpa using hc
    simp only [hc, Bool.false_and, Bool.false_eq_true, if_false]
    split
    · simpa using hne
    · exact hacc

theorem scanKeywords_veto (fScore : String → String → ℚ) (t command : String)
    (kws : List String) (acc : BestAcc) (ht : isHelpWithAction t = true)
    (hacc : acc.bestMatch ≠ some "/ctx:help") :
    (scanKeywords fScore t command kws acc).bestMatch ≠ some "/ctx:help" := by
  induction kws generalizing acc with
  | nil => exact hacc
  | cons kw rest ih =>
    rw [scanKeywords, List.foldl_cons]
    exact ih _ (scanStep_veto fScore t command kw acc ht hacc)

theorem foldIndex_veto (fScore : String → String → ℚ) (t : String)
    (index : List (String × List String)) (acc : BestAcc)
    (ht : isHelpWithAction t = true)
    (hacc : acc.bestMatch ≠ some "/ctx:help") :
    (index.foldl (fun acc p => scanKeywords fScore t p.1 p.2 acc)
        acc).bestMatch ≠ some "/ctx:help" := by
  induction index generalizing acc with
  | nil => exact hacc
  | cons p rest ih =>
    rw [List.foldl_cons]
    exact ih _ (scanKeywords_veto fScore t p.1 p.2 acc ht hacc)

/-- C7: the keyword matcher never resolves the utterance
help me research the best caching library to /ctx:help — the
help-with-action exclusion vetoes every /ctx:help candidate for any keyword
index and any similarity function — while the utterance show help resolves
to /ctx:help with the fixed top score 1 of a contained keyword (vocabulary
and similarity modelled from the spec). -/
theorem helpExclusion_scenario (index : List (String × List String))
    (fScore : String → String → ℚ) (m : IntentMatch)
    (h : pyMatchV2 index fScore "help me research the best caching library" =
      some m) :
    m.command ≠ "/ctx:help" ∧
    pyMatchV2 ctxKeywordIndex specFuzzScore "show help" =
      some ⟨"/ctx:help", 1, "fuzzy", 0, ["help"]⟩ := by
  refine ⟨?_, by decide⟩
  unfold pyMatchV2 at h
  split at h
  · exact absurd h (by simp)
  · dsimp only at h
    have hveto := foldIndex_veto fScore
      (String.mk (List.map Char.toLower
        (pyStrip "help me research the best caching library".data)))
      index ⟨none, 0, []⟩ (by decide) (by simp)
    split at h
    next hnone => exact absurd h (by simp)
    next cmd heq =>
      split at h
      · cases Option.some.inj h
        intro hcmd
        have hc2 : cmd = "/ctx:help" := hcmd
        rw [hc2] at heq
        exact hveto heq
      · exact absurd h (by simp)

/-- Closed instance of `helpExclusion_scenario` at the spec-modelled
vocabulary, on which the utterance resolves to /ctx:research. -/
theorem helpExclusion_scenario_witness :
    (⟨"/ctx:research", 1, "fuzzy", 0, ["research"]⟩ : IntentMatch).command ≠
      "/ctx:help" :=
  (helpExclusion_scenario ctxKeywordIndex specFuzzScore
    ⟨"/ctx:research", 1, "fuzzy", 0, ["research"]⟩ (by decide)).1

/-- C8: for every non-empty latency sample list, the p50 / p95 / p99 ranks
computed by get_stats are within bounds of the sorted sample list and the
percentile values are monotone: p50 at most p95 at most p99. -/
theorem percentile_monotone (ls : List ℚ) (h : ls ≠ []) :
    ∃ s, perfStats ls = some s ∧ s.p50 ≤ s.p95 ∧ s.p95 ≤ s.p99 ∧
      pctIdx ls.length 50 < ls.length ∧ pctIdx ls.length 95 < ls.length ∧
      pctIdx ls.length 99 < ls.length := by
  have hn : 0 < ls.length := List.length_pos.mpr h
  have hlen : (List.insertionSort (· ≤ ·) ls).length = ls.length :=
    List.length_insertionSort _ _
  have hsorted : List.Sorted (· ≤ ·) (List.insertionSort (· ≤ ·) ls) :=
    List.sorted_insertionSort _ _
  have hidx : ∀ p, p ≤ 99 → pctIdx ls.length p < ls.length := by
    intro p hp
    unfold pctIdx
    have : ls.length * p < ls.length * 100 := by
      calc ls.length * p ≤ ls.length * 99 := Nat.mul_le_mul_left _ hp
        _ < ls.length * 100 := by omega
    omega
  have h50 := hidx 50 (by omega)
  have h95 := hidx 95 (by omega)
  have h99 := hidx 99 (by omega)
  have hmono : ∀ p q, p ≤ q → pctIdx ls.length p ≤ pctIdx ls.length q := by
    intro p q hpq
    exact Nat.div_le_div_right (Nat.mul_le_mul_left _ hpq)
  have hne : (List.insertionSort (· ≤ ·) ls).isEmpty = false := by
    rw [List.isEmpty_eq_false]
    intro hcon
    rw [hcon] at hlen
    simp at hlen
    omega
  have hget : ∀ p (hp : p ≤ 99),
      (List.insertionSort (· ≤ ·) ls).getD
          (pctIdx (List.insertionSort (· ≤ ·) ls).length p) 0 =
        (List.insertionSort (· ≤ ·) ls).get
          ⟨pctIdx ls.length p, by rw [hlen]; exact hidx p hp⟩ := by
    intro p hp
    simp only [hlen]
    have hb : pctIdx ls.length p < (List.insertionSort (· ≤ ·) ls).length := by
      rw [hlen]
      exact hidx p hp
    exact List.getD_eq_get _ _ hb
  have hrel : ∀ p q, p ≤ q → q ≤ 99 →
      (List.insertionSort (· ≤ ·) ls).getD
          (pctIdx (List.insertionSort (· ≤ ·) ls).length p) 0 ≤
        (List.insertionSort (· ≤ ·) ls).getD
          (pctIdx (List.insertionSort (· ≤ ·) ls).length q) 0 := by
    intro p q hpq hq
    rw [hget p (le_trans hpq hq), hget q hq]
    exact hsorted.rel_get_of_le (by simpa using hmono p q hpq)
  have hps : perfStats ls = some
      ⟨(List.insertionSort (· ≤ ·) ls).getD
          (pctIdx (List.insertionSort (· ≤ ·) ls).length 50) 0,
        (List.insertionSort (· ≤ ·) ls).getD
          (pctIdx (List.insertionSort (· ≤ ·) ls).length 95) 0,
        (List.insertionSort (· ≤ ·) ls).getD
          (pctIdx (List.insertionSort (· ≤ ·) ls).length 99) 0,
        (List.insertionSort (· ≤ ·) ls).length⟩ := by
    unfold perfStats
    simp only [hne, Bool.false_eq_true, if_false]
  exact ⟨_, hps, hrel 50 95 (by omega) (by omega), hrel 95 99 (by omega) (by omega),
    h50, h95, h99⟩

/-- Closed instance of `percentile_monotone` at a three-sample list. -/
theorem percentile_monotone_witness :
    ([(3 : ℚ), 1, 2] ≠ []) ∧
      (∃ s, perfStats [(3 : ℚ), 1, 2] = some s ∧ s.p50 ≤ s.p95 ∧
        s.p95 ≤ s.p99 ∧ pctIdx 3 50 < 3 ∧ pctIdx 3 95 < 3 ∧ pctIdx 3 99 < 3) :=
  ⟨by decide, percentile_monotone [(3 : ℚ), 1, 2] (by decide)⟩

end Promptune
